import Mathlib

/-!
Verification of the sporthalle crawler/sync program.

The development shallowly embeds the two source files:
  * `sporthalle/utils.py`  — time parsing helpers (`parse_datetime`,
    `add_hours_avoiding_next_day`);
  * `sporthalle/crawl.py`  — element grouping (`collect_selected_elements`),
    event extraction (`parse_event`), and calendar reconciliation
    (`find_existing_event`, `update_or_create_event`, `delete_event`,
    `sync_events`, `main`).

Modelling conventions:
  * A Python `date` is its rata-die day number (`Int`, epoch 0000-03-01),
    computed by the standard civil-calendar conversion.  A naive `datetime`
    is its absolute minute count `Int` (`day * 1440 + hour * 60 + minute`).
    Equality of dates/datetimes then coincides with Python's `==`.
  * Python exceptions are an explicit `Except PyErr` result; the distinct
    exception classes that matter to control flow are the `PyErr`
    constructors.
  * `logging` calls are modelled structurally: reconciliation log lines
    become `Decision` values and the forced-doors line becomes a
    `LogEntry.forceEvent` value carrying exactly the data interpolated
    into the f-string (artist and date).
  * Remote-calendar traffic (`calendar.events()`, `save_event`, `save`,
    `delete`) is recorded as a `RemoteOp` trace; the remote store itself is
    an immutable list of `RemoteEvent` for the duration of one sync cycle.
  * The thread pools in `sync_events` submit one independent task per
    event; the model lists the per-event decisions/operations in
    submission order (phase 1: creates/updates, phase 2: deletes).
-/

/-! ## Civil calendar arithmetic (model of Python `date`/`datetime`) -/

/-- Rata-die day number of a civil date (epoch 0000-03-01), the standard
`days_from_civil` algorithm. -/
def daysFromCivil (y : Int) (m d : Nat) : Int :=
  let yp : Int := if m ≤ 2 then y - 1 else y
  let era : Int := Int.fdiv yp 400
  let yoe : Nat := (yp - era * 400).toNat
  let mp : Nat := if 3 ≤ m then m - 3 else m + 9
  let doy : Nat := (153 * mp + 2) / 5 + d - 1
  let doe : Nat := yoe * 365 + yoe / 4 - yoe / 100 + doy
  era * 146097 + (doe : Int)

/-- Civil date (year, month, day) of a rata-die day number, the standard
`civil_from_days` algorithm. -/
def civilFromDays (z : Int) : Int × Nat × Nat :=
  let era : Int := Int.fdiv z 146097
  let doe : Nat := (z - era * 146097).toNat
  let yoe : Nat := (doe - doe / 1460 + doe / 36524 - doe / 146096) / 365
  let doy : Nat := doe - (365 * yoe + yoe / 4 - yoe / 100)
  let mp : Nat := (5 * doy + 2) / 153
  let d : Nat := doy - (153 * mp + 2) / 5 + 1
  let m : Nat := if mp < 10 then mp + 3 else mp - 9
  (era * 400 + yoe + (if m ≤ 2 then 1 else 0), m, d)

/-- Python `datetime.date()`: the rata-die day a datetime lies on. -/
def dateOf (t : Int) : Int := Int.fdiv t 1440

/-- Python `date.day`: day-of-month of a rata-die day. -/
def dayOfMonth (z : Int) : Nat := (civilFromDays z).2.2

/-- Python `datetime.combine(d, time(hour, minute))` in absolute minutes. -/
def combine (d : Int) (hour minute : Int) : Int := d * 1440 + hour * 60 + minute

/-- Gregorian leap-year test (as used by Python `calendar`/`date`). -/
def isLeap (y : Int) : Bool :=
  (y.emod 4 == 0) && (!(y.emod 100 == 0) || (y.emod 400 == 0))

/-- Length of a month, for `date` constructor validation. -/
def daysInMonth (y : Int) (m : Nat) : Nat :=
  if m = 2 then (if isLeap y then 29 else 28)
  else if m = 4 ∨ m = 6 ∨ m = 9 ∨ m = 11 then 30
  else 31

/-- Python exceptions that are observable in this program's control flow. -/
inductive PyErr where
  | countMismatch
  | networkError
  | indexError
  | attributeError
  | valueError
  | typeError
deriving DecidableEq, Repr

/-- Python `date(year, month, day)`: validates its arguments (raising
`ValueError` on out-of-range components) and yields the rata-die day. -/
def pyDate (y mo da : Int) : Except PyErr Int :=
  if 1 ≤ y ∧ y ≤ 9999 ∧ 1 ≤ mo ∧ mo ≤ 12 ∧ 1 ≤ da ∧
      da ≤ (daysInMonth y mo.toNat : Int)
  then Except.ok (daysFromCivil y mo.toNat da.toNat)
  else Except.error PyErr.valueError

/-! ## Small Python string helpers -/

/-- Digits of a decimal string, if it is a nonempty all-digit string. -/
def digitsToNat? : List Char → Option Nat
  | [] => none
  | [c] => if c.isDigit then some (c.toNat - 48) else none
  | c :: rest =>
    if c.isDigit then
      match digitsToNat? rest with
      | some n => some ((c.toNat - 48) * (10 ^ rest.length) + n)
      | none => none
    else none

/-- Python `int(s)` on a plain decimal string (optional leading minus sign,
then decimal digits); `none` models the `ValueError` raised otherwise. -/
def pyInt? (s : String) : Option Int :=
  match s.toList with
  | '-' :: rest => (digitsToNat? rest).map (fun n => -(n : Int))
  | cs => (digitsToNat? cs).map Int.ofNat

def splitOnCharAux (sep : Char) : List Char → List Char → List String
  | [], acc => [String.mk acc.reverse]
  | c :: cs, acc =>
    if c = sep then String.mk acc.reverse :: splitOnCharAux sep cs []
    else splitOnCharAux sep cs (c :: acc)

/-- Python `s.split(sep)` for a one-character separator: splits at every
occurrence, keeping empty fragments (`"".split(sep) == [""]`). -/
def pySplit (s : String) (sep : Char) : List String :=
  splitOnCharAux sep s.toList []

/-- Python `s.strip()`. -/
def pyStrip (s : String) : String :=
  String.mk (((s.toList.dropWhile Char.isWhitespace).reverse.dropWhile
    Char.isWhitespace).reverse)

/-! ## utils.py -/

/-- A `re.Match` as consumed by `parse_datetime`: only `group(1)` is read,
which is a string, or `None` when the group did not participate. -/
structure ReMatch where
  group1 : Option String
deriving DecidableEq, Repr

/-- Sequencing `Except` over a list (Python iteration that may raise). -/
def exMapM (f : α → Except PyErr β) : List α → Except PyErr (List β)
  | [] => Except.ok []
  | a :: as =>
    match f a with
    | Except.error e => Except.error e
    | Except.ok b =>
      match exMapM f as with
      | Except.error e => Except.error e
      | Except.ok bs => Except.ok (b :: bs)

/-- `int` conversion of one fragment, ValueError on failure. -/
def convInt (p : String) : Except PyErr Int :=
  match pyInt? p with
  | some k => Except.ok k
  | none => Except.error PyErr.valueError

/-- `utils.parse_datetime(d, match)`: returns `None` when there was no
match or when `match.group(1)` is not a string; otherwise splits the
capture on `":"`, converts both fragments with `int` (ValueError
propagates), unpacks exactly two values (ValueError otherwise), and builds
`datetime.combine(d, time(hour, minute))` (whose constructor validates the
ranges, raising ValueError).  `parse_capture` is the capture-processing
tail of the function; `parse_datetime` is the function itself. -/
def parse_capture (d : Int) (g : String) : Except PyErr (Option Int) :=
  match exMapM convInt (pySplit g ':') with
  | Except.error e => Except.error e
  | Except.ok ints =>
    match ints with
    | [hour, minute] =>
      if 0 ≤ hour ∧ hour ≤ 23 ∧ 0 ≤ minute ∧ minute ≤ 59 then
        Except.ok (some (combine d hour minute))
      else Except.error PyErr.valueError
    | _ => Except.error PyErr.valueError

def parse_datetime (d : Int) (m : Option ReMatch) : Except PyErr (Option Int) :=
  match m with
  | none => Except.ok none
  | some mm =>
    match mm.group1 with
    | none => Except.ok none
    | some g => parse_capture d g

/-- `utils.add_hours_avoiding_next_day(dt, hours)`: `None` passes through;
otherwise adds `timedelta(hours=hours)` and, when the result's `.day`
(day-of-month) differs from the input's, replaces it by
`datetime.combine(dt.date() + timedelta(days=1), time())`. -/
def add_hours_avoiding_next_day (dt : Option Int) (hours : Int) : Option Int :=
  match dt with
  | none => none
  | some t =>
    let new_t := t + hours * 60
    if dayOfMonth (dateOf new_t) = dayOfMonth (dateOf t) then some new_t
    else some (combine (dateOf t + 1) 0 0)

/-- The spec's reading of the capture text for claim C9: the result of
parsing it as exactly two colon-separated integers, if possible. -/
def twoColonInts (g : String) : Option (Int × Int) :=
  match pySplit g ':' with
  | [a, b] =>
    match pyInt? a, pyInt? b with
    | some x, some y => some (x, y)
    | _, _ => none
  | _ => none

/-! ## crawl.py: nodes and the event extractor -/

/-- A parsed-tree element as the extractor sees it: an identity (distinct
real elements are distinct) and its `.text`. -/
structure Node where
  id : Nat
  text : String
deriving DecidableEq, Repr

/-- A log line emitted during extraction, modelled structurally: the
forced-doors `logging.info` names exactly the artist and the date. -/
inductive LogEntry where
  | forceEvent (artist : String) (day : Int)
deriving DecidableEq, Repr

/-- The `CalendarEvent` record of `crawl.py` (`day` is a rata-die date,
`doors`/`begin` are absolute-minute datetimes or `none`). -/
structure CalendarEvent where
  category : String
  artist : String
  day : Int
  doors : Option Int
  begin : Option Int
  description : String
deriving DecidableEq, Repr

/-- `group[i]` may be a real element or Python `None` (the grouper can
append `None`); `.text` on `None` raises `AttributeError`, and `.strip()`
is applied to the text. -/
def stripText (n : Option Node) : Except PyErr String :=
  match n with
  | none => Except.error PyErr.attributeError
  | some nd => Except.ok (pyStrip nd.text)

/-- Drop `marker` as a literal leading run of `cs`, if it is one. -/
def chopLead : List Char → List Char → Option (List Char)
  | [], cs => some cs
  | _ :: _, [] => none
  | p :: ps, c :: cs => if c = p then chopLead ps cs else none

/-- Try the pattern `marker ++ \d\d:\d\d ++ " Uhr"` at the head of `cs`,
returning the captured `"HH:MM"` text. -/
def tryMatchAt (marker : List Char) (cs : List Char) : Option String :=
  match chopLead marker cs with
  | none => none
  | some rest =>
    match rest with
    | d1 :: d2 :: co :: d3 :: d4 :: rest2 =>
      if d1.isDigit ∧ d2.isDigit ∧ co = ':' ∧ d3.isDigit ∧ d4.isDigit then
        match chopLead [' ', 'U', 'h', 'r'] rest2 with
        | some _ => some (String.mk [d1, d2, ':', d3, d4])
        | none => none
      else none
    | _ => none

/-- Leftmost match of the pattern, as `re.search` finds it. -/
def searchFrom (marker : List Char) : List Char → Option String
  | [] => none
  | c :: rest =>
    match tryMatchAt marker (c :: rest) with
    | some g => some g
    | none => searchFrom marker rest

/-- `re.search(marker + r"(\d{2}:\d{2}) Uhr", s)`, keeping only what the
caller reads: the match object with its first capture group. -/
def pySearch (marker : String) (s : String) : Option ReMatch :=
  (searchFrom marker.toList s.toList).map (fun g => { group1 := some g })

/-- Literal prefix of the doors regex of `parse_event`. -/
def einlassMark : String := "Einlass: "

/-- Literal prefix of the begin regex of `parse_event`. -/
def beginnMark : String := "Beginn: "

/-- Header part of `parse_event`: reads `group[0]` and `group[1]`
(IndexError when missing, AttributeError when `None`), takes the last
space-token of line 1 as category, parses space-token 1 as a `DD.MM.YYYY`
date (int conversions may raise ValueError; `date(*reversed(parts))`
raises TypeError unless exactly three parts, ValueError when out of
range), and joins the stripped texts of `group[2:]` into the description.
Returns `(category, artist, day, description)`. -/
def parse_header (group : List (Option Node)) :
    Except PyErr (String × String × Int × String) :=
  match group.get? 0 with
  | none => Except.error PyErr.indexError
  | some n0 =>
    match stripText n0 with
    | Except.error e => Except.error e
    | Except.ok artist =>
      match group.get? 1 with
      | none => Except.error PyErr.indexError
      | some n1 =>
        match stripText n1 with
        | Except.error e => Except.error e
        | Except.ok day_date_type =>
          let toks := pySplit day_date_type ' '
          let category := toks.getLastD ""
          match toks.get? 1 with
          | none => Except.error PyErr.indexError
          | some tok1 =>
            match exMapM convInt (pySplit tok1 '.') with
            | Except.error e => Except.error e
            | Except.ok nums =>
              match nums.reverse with
              | [y, mo, da] =>
                match pyDate y mo da with
                | Except.error e => Except.error e
                | Except.ok d =>
                  match exMapM stripText (group.drop 2) with
                  | Except.error e => Except.error e
                  | Except.ok frags =>
                    Except.ok (category, artist, d, String.join frags)
              | _ => Except.error PyErr.typeError

/-- The two regex searches and time conversions of `parse_event`, in
source order (doors first). -/
def mk_times (d : Int) (description : String) :
    Except PyErr (Option Int × Option Int) :=
  match parse_datetime d (pySearch einlassMark description) with
  | Except.error e => Except.error e
  | Except.ok doors =>
    match parse_datetime d (pySearch beginnMark description) with
    | Except.error e => Except.error e
    | Except.ok begin => Except.ok (doors, begin)

/-- Tail of `parse_event`: when both times are absent, force `doors` to
16:00 on the day and log the forcing; always return the record. -/
def finish_event (category artist : String) (d : Int) (description : String) :
    Except PyErr (CalendarEvent × List LogEntry) :=
  match mk_times d description with
  | Except.error e => Except.error e
  | Except.ok (doors, begin) =>
    if doors = none ∧ begin = none then
      Except.ok
        ({ category := category, artist := artist, day := d,
           doors := some (combine d 16 0), begin := begin,
           description := description },
         [LogEntry.forceEvent artist d])
    else
      Except.ok
        ({ category := category, artist := artist, day := d,
           doors := doors, begin := begin, description := description },
         [])

/-- `crawl.parse_event(group)`.  Note: the Python function is annotated
`-> CalendarEvent | None` but has no `return None` path; failures are
uncaught exceptions, which the embedding makes explicit. -/
def parse_event (group : List (Option Node)) :
    Except PyErr (CalendarEvent × List LogEntry) :=
  match parse_header group with
  | Except.error e => Except.error e
  | Except.ok (category, artist, d, description) =>
    finish_event category artist d description

/-! ## crawl.py: the marker-pair grouper and crawl -/

/-- The document-order siblings that follow element `s` in the sibling
chain `doc`: `find_next_sibling` of the element at a position is the next
list entry. -/
def siblingsAfter : List Node → Node → List Node
  | [], _ => []
  | c :: rest, s => if c = s then rest else siblingsAfter rest s

/-- The `while` loop of `collect_selected_elements`: while the current
element is truthy and not an end marker, move to `find_next_sibling()`
(possibly `None`, at the end of the sibling chain) and append it. -/
def loopCollect (ends : List Node) : Node → List Node → List (Option Node)
  | current, rest =>
    if current ∈ ends then []
    else
      match rest with
      | [] => [none]
      | c :: rest2 => some c :: loopCollect ends c rest2

/-- `crawl.collect_selected_elements(start_elements, end_elements)`: one
group per start element, in order; each group starts with its start
element followed by what the while loop appended (`end_elements` is used
as a membership set only). -/
def collect_selected_elements (doc : List Node)
    (start_elements end_elements : List Node) : List (List (Option Node)) :=
  start_elements.map
    (fun s => some s :: loopCollect end_elements s (siblingsAfter doc s))

/-- `crawl.find_elements`, reduced to its one piece of logic: the
start/end marker count contract (`ElementCountMissmatchError` when the
counts differ); the CSS selection itself is the external collaborator. -/
def find_elements (start_elements end_elements : List Node) :
    Except PyErr (List Node × List Node) :=
  if start_elements.length ≠ end_elements.length then
    Except.error PyErr.countMismatch
  else Except.ok (start_elements, end_elements)

/-- `crawl.crawl()` downstream of the fetch: marker-count check, the
either-empty guard returning `[]`, grouping, and parsing every group (a
raised exception in any `parse_event` aborts the whole crawl; the
`if event is not None` filter is vacuous since `parse_event` never
returns `None`). -/
def crawl (doc : List Node) (start_elements end_elements : List Node) :
    Except PyErr (List CalendarEvent × List LogEntry) :=
  match find_elements start_elements end_elements with
  | Except.error e => Except.error e
  | Except.ok _ =>
    if start_elements = [] ∨ end_elements = [] then Except.ok ([], [])
    else
      match exMapM parse_event
          (collect_selected_elements doc start_elements end_elements) with
      | Except.error e => Except.error e
      | Except.ok pairs =>
        Except.ok (pairs.map Prod.fst, (pairs.map Prod.snd).flatten)

/-- Claim-side grouping of the sibling walk, following the spec's words as
amended: siblings are appended one by one, stopping inclusively at the
first sibling in the end-marker set; when siblings run out first, a final
`None` sentinel is appended. -/
def specWalk (ends : List Node) : List Node → List (Option Node)
  | [] => [none]
  | c :: rest => if c ∈ ends then [some c] else some c :: specWalk ends rest

/-- Claim-side group for one start marker: the start node, then (unless
the start node is itself an end marker, in which case the group is just
the start node) its siblings per `specWalk`. -/
def specGroup (doc : List Node) (ends : List Node) (s : Node) :
    List (Option Node) :=
  some s :: (if s ∈ ends then [] else specWalk ends (siblingsAfter doc s))

/-! ## crawl.py: remote calendar model and reconciliation -/

/-- A remote calendar entry's vevent data (`summary`, `dtstart`, `dtend`)
plus a reference (`ref`) identifying the stored object for
`save`/`delete` calls. -/
structure RemoteEvent where
  ref : Nat
  summary : String
  dtstart : Int
  dtend : Int
deriving DecidableEq, Repr

/-- The remote calendar for one sync cycle; `events` is what every
`calendar.events()` call returns during the cycle. -/
structure Calendar where
  events : List RemoteEvent
deriving DecidableEq, Repr

/-- One call leaving for the remote calendar collaborator. -/
inductive RemoteOp where
  | listEvents
  | saveEvent (dtstart dtend : Option Int) (summary : String)
  | save (ref : Nat) (dtstart dtend : Option Int) (summary : String)
  | delete (ref : Nat)
deriving DecidableEq, Repr

/-- One reconciliation decision, as logged by `crawl.py`. -/
inductive Decision where
  | created (summary : String)
  | updated (summary : String)
  | nochange (summary : String)
  | deleted (summary : String)
deriving DecidableEq, Repr

/-- The f-string `"[" + category + "] " + artist` used everywhere as the
event's display summary. -/
def summaryOf (event : CalendarEvent) : String :=
  "[" ++ event.category ++ "] " ++ event.artist

/-- The match test of `find_existing_event`: equal summary and equal
start date. -/
def matchesEvent (event : CalendarEvent) (existing : RemoteEvent) : Bool :=
  (existing.summary == summaryOf event) && (dateOf existing.dtstart == event.day)

/-- `crawl.find_existing_event(calendar, event)`: fetches
`calendar.events()` (one remote list call) and linearly scans it,
returning the first entry matching summary and start date. -/
def find_existing_event (calendar : Calendar) (event : CalendarEvent) :
    Option RemoteEvent × List RemoteOp :=
  (calendar.events.find? (matchesEvent event), [RemoteOp.listEvents])

/-- The three-field comparison of `update_or_create_event` (`!=` on
`dtstart`, `dtend`, `summary`; the stored values are wrapped in `some`
because the computed targets are optional in Python). -/
def needsUpdate (existing : RemoteEvent) (dtstart dtend : Option Int)
    (summary : String) : Bool :=
  (some existing.dtstart != dtstart) || (some existing.dtend != dtend) ||
    (existing.summary != summary)

/-- `crawl.update_or_create_event(calendar, event, dry_run)`: looks the
event up remotely, computes the target `dtstart`/`dtend`/`summary`, and
either updates the found entry (saving unless dry run), logs no change,
or creates a new entry (unless dry run).  Result: the logged decisions
and the remote calls made. -/
def update_or_create_event (calendar : Calendar) (event : CalendarEvent)
    (dry_run : Bool) : List Decision × List RemoteOp :=
  let found := find_existing_event calendar event
  let dtstart := if event.doors.isSome then event.doors else event.begin
  let dtend := if event.begin.isSome then add_hours_avoiding_next_day event.begin 3
               else add_hours_avoiding_next_day event.doors 5
  let summary := summaryOf event
  match found.1 with
  | some existing =>
    if needsUpdate existing dtstart dtend summary then
      ([Decision.updated summary],
       found.2 ++ (if dry_run then []
                   else [RemoteOp.save existing.ref dtstart dtend summary]))
    else ([Decision.nochange summary], found.2)
  | none =>
    ([Decision.created summary],
     found.2 ++ (if dry_run then []
                 else [RemoteOp.saveEvent dtstart dtend summary]))

/-- `crawl.delete_event(new_event_summaries, existing_event, dry_run)`:
when the stored summary is not among the target summaries, log the
deletion and delete unless dry run. -/
def delete_event (new_event_summaries : List String)
    (existing : RemoteEvent) (dry_run : Bool) :
    List Decision × List RemoteOp :=
  if new_event_summaries.contains existing.summary then ([], [])
  else
    ([Decision.deleted existing.summary],
     if dry_run then [] else [RemoteOp.delete existing.ref])

/-- Concatenation of per-task outputs. -/
def catLists : List (List α) → List α
  | [] => []
  | x :: xs => x ++ catLists xs

/-- The decisions logged by one `sync_events` cycle: phase 1 (one
`update_or_create_event` task per scraped event, in submission order),
then phase 2 (one `delete_event` task per entry of the snapshot
`existing_events = calendar.events()`, against the summary set of the
scraped events). -/
def syncDecisions (calendar : Calendar) (new_events : List CalendarEvent)
    (dry_run : Bool) : List Decision :=
  catLists (new_events.map
      (fun ev => (update_or_create_event calendar ev dry_run).1)) ++
  catLists (calendar.events.map
      (fun ex => (delete_event (new_events.map summaryOf) ex dry_run).1))

/-- The remote calls of one `sync_events` cycle: the initial
`calendar.events()` snapshot fetch, then the calls of phase 1 and
phase 2. -/
def syncOps (calendar : Calendar) (new_events : List CalendarEvent)
    (dry_run : Bool) : List RemoteOp :=
  RemoteOp.listEvents ::
    (catLists (new_events.map
        (fun ev => (update_or_create_event calendar ev dry_run).2)) ++
     catLists (calendar.events.map
        (fun ex => (delete_event (new_events.map summaryOf) ex dry_run).2)))

/-- `crawl.sync_events(calendar, new_events, dry_run)`, observed as the
pair (logged decisions, remote call trace). -/
def sync_events (calendar : Calendar) (new_events : List CalendarEvent)
    (dry_run : Bool) : List Decision × List RemoteOp :=
  (syncDecisions calendar new_events dry_run,
   syncOps calendar new_events dry_run)

/-- Claim-side target start of claim C5: doors if present, else begin. -/
def target_dtstart (event : CalendarEvent) : Option Int :=
  if event.doors.isSome then event.doors else event.begin

/-- Claim-side target end of claim C5: begin plus three clamped hours if
begin is present, else doors plus five clamped hours. -/
def target_dtend (event : CalendarEvent) : Option Int :=
  if event.begin.isSome then add_hours_avoiding_next_day event.begin 3
  else add_hours_avoiding_next_day event.doors 5

/-- Number of `calendar.events()` list fetches in a call trace. -/
def countListCalls : List RemoteOp → Nat
  | [] => 0
  | RemoteOp.listEvents :: rest => countListCalls rest + 1
  | _ :: rest => countListCalls rest

/-- The mutating calls (everything except `listEvents`) of a trace. -/
def mutatingOps : List RemoteOp → List RemoteOp
  | [] => []
  | RemoteOp.listEvents :: rest => mutatingOps rest
  | op :: rest => op :: mutatingOps rest

/-- The delete decisions of a decision log. -/
def deleteDecisions : List Decision → List Decision
  | [] => []
  | Decision.deleted s :: rest => Decision.deleted s :: deleteDecisions rest
  | _ :: rest => deleteDecisions rest

/-- Outcome of one `crawl.main()` cycle. -/
inductive MainResult where
  | fatalLogged (e : PyErr)
  | crashed (e : PyErr)
  | synced (decisions : List Decision) (ops : List RemoteOp)
deriving DecidableEq, Repr

/-- `crawl.main()` downstream of CLI/credential handling: run the crawl
(taking the fetched page's sibling chain and marker selections as input,
or a transport error); `ElementCountMissmatchError` and transport errors
are caught and logged with no sync attempted; any other exception
escapes; otherwise the scraped events are synced. -/
def mainCycle (calendar : Calendar)
    (fetched : Except PyErr (List Node × List Node × List Node))
    (dry_run : Bool) : MainResult :=
  match
    (match fetched with
     | Except.error e => Except.error e
     | Except.ok (doc, starts, ends) => crawl doc starts ends) with
  | Except.error e =>
    if e = PyErr.countMismatch ∨ e = PyErr.networkError then
      MainResult.fatalLogged e
    else MainResult.crashed e
  | Except.ok (events, _) =>
    MainResult.synced (syncDecisions calendar events dry_run)
      (syncOps calendar events dry_run)

/-! ## Concrete inputs used by witnesses and counterexamples -/

/-- Decidable equality for `Except` results, for evaluating closed facts. -/
instance {ε α : Type} [DecidableEq ε] [DecidableEq α] : DecidableEq (Except ε α) :=
  fun a b =>
    match a, b with
    | Except.error e, Except.error f =>
      if h : e = f then isTrue (by rw [h])
      else isFalse (fun hc => h (by injection hc))
    | Except.ok x, Except.ok y =>
      if h : x = y then isTrue (by rw [h])
      else isFalse (fun hc => h (by injection hc))
    | Except.error _, Except.ok _ => isFalse (fun hc => Except.noConfusion hc)
    | Except.ok _, Except.error _ => isFalse (fun hc => Except.noConfusion hc)

/-- A start-marker element that is also an end marker. -/
def exNodeA : Node := { id := 0, text := "A" }

/-- A title element. -/
def exNodeArtist : Node := { id := 1, text := "DJ Test" }

/-- A "day date category" line element. -/
def exNodeDate : Node := { id := 2, text := "Mo. 12.06.2025 Konzert" }

/-- An element serving as an end marker that never occurs as a sibling. -/
def exNodeOther : Node := { id := 3, text := "other" }

/-- 12 June 2025 as a rata-die day. -/
def exDay : Int := daysFromCivil 2025 6 12

/-- A fully populated scraped event (doors 18:00, begin 20:00). -/
def exEvent : CalendarEvent :=
  { category := "Konzert", artist := "DJ Test", day := exDay,
    doors := some (combine exDay 18 0), begin := some (combine exDay 20 0),
    description := "Einlass: 18:00 UhrBeginn: 20:00 Uhr" }

/-- The record extracted from a group with no time text: doors forced to
16:00. -/
def exForcedEvent : CalendarEvent :=
  { category := "Konzert", artist := "DJ Test", day := exDay,
    doors := some (combine exDay 16 0), begin := none, description := "" }

/-- A two-node group without time fragments. -/
def exGroupForced : List (Option Node) := [some exNodeArtist, some exNodeDate]

/-- An empty remote calendar. -/
def exCalEmpty : Calendar := { events := [] }

/-- A stored entry exactly equal to `exEvent`'s computed target triple
(start 18:00, end 23:00 = begin + 3h, same summary). -/
def exRemoteMatch : RemoteEvent :=
  { ref := 7, summary := summaryOf exEvent,
    dtstart := combine exDay 18 0, dtend := combine exDay 23 0 }

/-- A calendar holding exactly the matching entry. -/
def exCalMatch : Calendar := { events := [exRemoteMatch] }

/-- Document for the crawl-level malformed-group scenario: `exNodeA` is a
start marker and an end marker at once, so its group has one element;
the second group is well formed. -/
def exDocC1 : List Node := [exNodeA, exNodeArtist, exNodeDate]

def exStartsC1 : List Node := [exNodeA, exNodeArtist]

def exEndsC1 : List Node := [exNodeA, exNodeDate]

/-- Base datetime 2025-01-15 10:00 for the day-of-month clamp analysis. -/
def c4Base : Int := combine (daysFromCivil 2025 1 15) 10 0

/-! ## Claim C1 (malformed group handling) -/

/-- Claim C1 is wrong about the code, and the code is wrong about its own
interface: `parse_event` is annotated `-> CalendarEvent | None` and
`crawl` filters `None` results, but a group with fewer than two nodes
raises `IndexError` instead of yielding no record, the exception
propagates out of the whole group loop (the well-formed second group's
record is lost), and `main` does not catch `IndexError`, so the entire
crawl cycle crashes instead of skipping the one bad group. -/
theorem c1_short_group_crashes_crawl :
    parse_event [some exNodeA] = Except.error PyErr.indexError
  ∧ collect_selected_elements exDocC1 exStartsC1 exEndsC1 =
      [[some exNodeA], [some exNodeArtist, some exNodeDate]]
  ∧ parse_event [some exNodeArtist, some exNodeDate] =
      Except.ok (exForcedEvent, [LogEntry.forceEvent "DJ Test" exDay])
  ∧ crawl exDocC1 exStartsC1 exEndsC1 = Except.error PyErr.indexError
  ∧ mainCycle exCalEmpty (Except.ok (exDocC1, exStartsC1, exEndsC1)) false =
      MainResult.crashed PyErr.indexError := by
  refine ⟨rfl, by decide, rfl, rfl, rfl⟩

/-! ## Claim C4 (hour addition clamp) -/

/-- Claim C4 is right and the code has a slip: `add_hours_avoiding_next_day`
compares `.day` (day-of-month), not the calendar date, so
2025-01-15 10:00 + 744 h = 2025-02-15 10:00 changes the calendar day yet
keeps day-of-month 15 and escapes the clamp, ending strictly later than
the 2025-01-16 00:00 the clamp (and the function's own comment,
"set it to the end of the current day") promises. -/
theorem c4_day_of_month_escape_eval :
    add_hours_avoiding_next_day (some c4Base) 744 =
      some (combine (daysFromCivil 2025 2 15) 10 0)
  ∧ dateOf (combine (daysFromCivil 2025 2 15) 10 0) ≠ dateOf c4Base
  ∧ dayOfMonth (dateOf (combine (daysFromCivil 2025 2 15) 10 0)) =
      dayOfMonth (dateOf c4Base)
  ∧ combine (daysFromCivil 2025 2 15) 10 0 ≠ combine (dateOf c4Base + 1) 0 0
  ∧ combine (dateOf c4Base + 1) 0 0 < combine (daysFromCivil 2025 2 15) 10 0 := by
  refine ⟨rfl, by decide, rfl, by decide, by decide⟩

/-! ## Claim C3 counterexample -/

/-- Claim C3 as stated fails: with a nonempty start collection and an
empty end collection the grouper still produces one group per start
marker (not zero groups), and whenever the sibling walk exhausts the
chain without meeting an end marker the group carries a trailing `None`
appended by the loop, so the group is not just the start node followed by
its siblings. -/
theorem c3_counterexample_trailing_none :
    collect_selected_elements [exNodeA, exNodeArtist] [exNodeA] [] =
      [[some exNodeA, some exNodeArtist, none]]
  ∧ collect_selected_elements [exNodeA, exNodeArtist] [exNodeA] [] ≠ []
  ∧ collect_selected_elements [exNodeA, exNodeArtist] [exNodeA] [exNodeOther] =
      [[some exNodeA, some exNodeArtist, none]]
  ∧ collect_selected_elements [exNodeA, exNodeArtist] [exNodeA] [exNodeOther] ≠
      [[some exNodeA, some exNodeArtist]] := by
  refine ⟨by decide, by decide, by decide, by decide⟩

/-! ## Claim C9 counterexample -/

/-- Claim C9 as stated fails: a match whose captured text is not
parseable as two colon-separated integers makes `parse_datetime` raise
`ValueError` (the `int` conversion), not return absent. -/
theorem c9_counterexample_unparseable_capture :
    parse_datetime 0 (some { group1 := some "ab" }) =
      Except.error PyErr.valueError
  ∧ parse_datetime 0 (some { group1 := some "ab" }) ≠ Except.ok none := by
  refine ⟨rfl, by decide⟩

/-! ## Claim C2 counterexample -/

/-- Claim C2 as stated fails: syncing a single scraped event performs two
`calendar.events()` list fetches — the snapshot taken by `sync_events`
plus one more inside `find_existing_event` when the create/update
decision for that event is computed — so create/update decisions re-read
the remote event list per action instead of using the one snapshot. -/
theorem c2_counterexample_refetch_per_action :
    countListCalls (sync_events exCalEmpty [exEvent] false).2 = 2
  ∧ (2 : Nat) ≠ 1 := by
  refine ⟨by decide, by decide⟩

/-! ## Claim C8 counterexample -/

/-- Claim C8's stronger phrasing ("zero calls at all reach the remote
collaborator") fails: even in dry-run mode the cycle still issues
`calendar.events()` calls to the remote store (the snapshot fetch and
one lookup per event). -/
theorem c8_counterexample_remote_calls_in_dry_run :
    (sync_events exCalEmpty [exEvent] true).2 ≠ []
  ∧ RemoteOp.listEvents ∈ (sync_events exCalEmpty [exEvent] true).2 := by
  refine ⟨by decide, by decide⟩

/-! ## Claim C3 amended -/

/-- A current element that is an end marker stops the loop at once. -/
theorem loopCollect_mem (ends : List Node) (cur : Node) (rest : List Node)
    (h : cur ∈ ends) : loopCollect ends cur rest = [] := by
  unfold loopCollect
  simp [h]

/-- The while loop of the grouper agrees with the claim-side sibling walk
once the current element is known not to be an end marker. -/
theorem loopCollect_eq_specWalk (ends : List Node) :
    ∀ (rest : List Node) (cur : Node), cur ∉ ends →
      loopCollect ends cur rest = specWalk ends rest := by
  intro rest
  induction rest with
  | nil => intro cur hcur; simp [loopCollect, specWalk, hcur]
  | cons c r ih =>
    intro cur hcur
    by_cases hc : c ∈ ends
    · simp [loopCollect, specWalk, hcur, hc, loopCollect_mem ends c r hc]
    · simp [loopCollect, specWalk, hcur, hc, ih c hc]

/-- Each produced group equals the claim-side group description. -/
theorem collect_group_eq (doc : List Node) (ends : List Node) (s : Node) :
    some s :: loopCollect ends s (siblingsAfter doc s) = specGroup doc ends s := by
  by_cases hs : s ∈ ends
  · simp [specGroup, hs, loopCollect_mem ends s (siblingsAfter doc s) hs]
  · simp [specGroup, hs, loopCollect_eq_specWalk ends (siblingsAfter doc s) s hs]

/-- The grouper maps every start marker to its claim-side group. -/
theorem collect_eq_specGroup (doc : List Node) (starts ends : List Node) :
    collect_selected_elements doc starts ends = starts.map (specGroup doc ends) := by
  unfold collect_selected_elements
  congr 1
  funext s
  exact collect_group_eq doc ends s

/-- Claim C3 amended: one group per start marker, in start-marker order;
each group is the start node followed by its forward siblings, appended
one by one, stopping inclusively at the first sibling in the end-marker
set — except that a start node that is itself an end marker forms a
one-node group, and when siblings are exhausted without meeting an end
marker the loop appends a final `None` sentinel.  Empty `startMarkers`
produce zero groups from the grouper itself; the either-collection-empty
zero-group behaviour holds at the `crawl` level, whose guard returns no
events (the grouper alone, fed a nonempty start collection with an empty
end collection, still produces one group per start marker). -/
theorem c3_amended_grouping (doc : List Node) (starts ends : List Node) :
    collect_selected_elements doc starts ends = starts.map (specGroup doc ends)
  ∧ (collect_selected_elements doc starts ends).length = starts.length
  ∧ collect_selected_elements doc [] ends = []
  ∧ (starts.length = ends.length → starts = [] ∨ ends = [] →
      crawl doc starts ends = Except.ok ([], [])) := by
  refine ⟨collect_eq_specGroup doc starts ends, ?_, rfl, ?_⟩
  · rw [collect_eq_specGroup doc starts ends]; exact List.length_map _ _
  · intro hlen hemp
    simp [crawl, find_elements, hlen, hemp]

/-- Witness for the amended claim C3 at a concrete input. -/
theorem c3_amended_grouping_witness :
    crawl exDocC1 [] [] = Except.ok ([], [])
  ∧ collect_selected_elements exDocC1 exStartsC1 exEndsC1 =
      exStartsC1.map (specGroup exDocC1 exEndsC1) :=
  ⟨(c3_amended_grouping exDocC1 [] []).2.2.2 rfl (Or.inl rfl),
   (c3_amended_grouping exDocC1 exStartsC1 exEndsC1).1⟩

/-! ## Sync-cycle bookkeeping lemmas -/

/-- List-fetch counting distributes over concatenation. -/
theorem countListCalls_append (a b : List RemoteOp) :
    countListCalls (a ++ b) = countListCalls a + countListCalls b := by
  induction a with
  | nil => simp [countListCalls]
  | cons op rest ih =>
    cases op <;> simp [countListCalls, ih]
    all_goals omega

/-- Every `update_or_create_event` call fetches the remote list exactly
once (inside `find_existing_event`), dry run or not. -/
theorem upd_one_list_call (cal : Calendar) (ev : CalendarEvent) (dry : Bool) :
    countListCalls (update_or_create_event cal ev dry).2 = 1 := by
  unfold update_or_create_event find_existing_event
  cases cal.events.find? (matchesEvent ev) <;> cases dry <;>
    simp [countListCalls, countListCalls_append, apply_ite Prod.snd,
      apply_ite countListCalls, ite_self]

/-- `delete_event` never fetches the remote list. -/
theorem del_no_list_call (sums : List String) (ex : RemoteEvent) (dry : Bool) :
    countListCalls (delete_event sums ex dry).2 = 0 := by
  unfold delete_event
  cases dry <;>
    simp [countListCalls, apply_ite Prod.snd, apply_ite countListCalls, ite_self]

/-- Phase 1 fetches the remote list once per scraped event. -/
theorem phase1_list_calls (cal : Calendar) (dry : Bool) :
    ∀ evs : List CalendarEvent,
      countListCalls (catLists
        (evs.map (fun ev => (update_or_create_event cal ev dry).2))) =
        evs.length := by
  intro evs
  induction evs with
  | nil => rfl
  | cons e rest ih =>
    simp [catLists, countListCalls_append, upd_one_list_call, ih, Nat.add_comm]

/-- Phase 2 never fetches the remote list. -/
theorem phase2_list_calls (sums : List String) (dry : Bool) :
    ∀ exs : List RemoteEvent,
      countListCalls (catLists
        (exs.map (fun ex => (delete_event sums ex dry).2))) = 0 := by
  intro exs
  induction exs with
  | nil => rfl
  | cons ex rest ih =>
    simp [catLists, countListCalls_append, del_no_list_call, ih]

/-- Extracting delete decisions distributes over concatenation. -/
theorem deleteDecisions_append (a b : List Decision) :
    deleteDecisions (a ++ b) = deleteDecisions a ++ deleteDecisions b := by
  induction a with
  | nil => simp [deleteDecisions]
  | cons d rest ih => cases d <;> simp [deleteDecisions, ih]

/-- `update_or_create_event` never logs a deletion. -/
theorem upd_no_delete_decision (cal : Calendar) (ev : CalendarEvent) (dry : Bool) :
    deleteDecisions (update_or_create_event cal ev dry).1 = [] := by
  unfold update_or_create_event find_existing_event
  cases cal.events.find? (matchesEvent ev) <;> cases dry <;>
    simp [deleteDecisions, apply_ite Prod.fst, apply_ite deleteDecisions,
      ite_self]

/-- Phase 1 contributes no delete decisions. -/
theorem phase1_no_delete_decisions (cal : Calendar) (dry : Bool) :
    ∀ evs : List CalendarEvent,
      deleteDecisions (catLists
        (evs.map (fun ev => (update_or_create_event cal ev dry).1))) = [] := by
  intro evs
  induction evs with
  | nil => rfl
  | cons e rest ih =>
    simp [catLists, deleteDecisions_append, upd_no_delete_decision, ih]

/-- Phase 2 logs exactly one deletion for each snapshot entry whose
summary is missing from the target summaries. -/
theorem phase2_delete_decisions (sums : List String) (dry : Bool) :
    ∀ exs : List RemoteEvent,
      deleteDecisions (catLists
        (exs.map (fun ex => (delete_event sums ex dry).1))) =
        (exs.filter (fun ex => !(sums.contains ex.summary))).map
          (fun ex => Decision.deleted ex.summary) := by
  intro exs
  induction exs with
  | nil => rfl
  | cons ex rest ih =>
    by_cases h : ex.summary ∈ sums
    · have hhead : (delete_event sums ex dry).1 = [] := by simp [delete_event, h]
      simp [catLists, deleteDecisions_append, hhead, deleteDecisions, ih,
        List.filter_cons, h]
    · have hhead : (delete_event sums ex dry).1 = [Decision.deleted ex.summary] := by
        simp [delete_event, h]
      simp [catLists, deleteDecisions_append, hhead, deleteDecisions, ih,
        List.filter_cons, h]

/-! ## Claim C2 amended -/

/-- Claim C2 amended: only the delete decisions work off the single
`existing_events` snapshot fetched at the start of the cycle; every
create/update decision re-fetches the remote event list once inside
`find_existing_event`, so a cycle over `n` scraped events performs
exactly `1 + n` remote list fetches rather than one. -/
theorem c2_amended_fetch_count (cal : Calendar) (evs : List CalendarEvent)
    (dry : Bool) :
    countListCalls (sync_events cal evs dry).2 = 1 + evs.length
  ∧ deleteDecisions (sync_events cal evs dry).1 =
      (cal.events.filter
          (fun ex => !((evs.map summaryOf).contains ex.summary))).map
        (fun ex => Decision.deleted ex.summary) := by
  constructor
  · simp [sync_events, syncOps, countListCalls, countListCalls_append,
      phase1_list_calls, phase2_list_calls, Nat.add_comm]
  · simp [sync_events, syncDecisions, deleteDecisions_append,
      phase1_no_delete_decisions, phase2_delete_decisions]

/-! ## Claim C8 amended -/

/-- The decision logged by `update_or_create_event` is the same with and
without the dry-run flag. -/
theorem upd_decisions_dry_indep (cal : Calendar) (ev : CalendarEvent)
    (d1 d2 : Bool) :
    (update_or_create_event cal ev d1).1 = (update_or_create_event cal ev d2).1 := by
  unfold update_or_create_event find_existing_event
  cases cal.events.find? (matchesEvent ev) <;>
    simp [apply_ite Prod.fst, ite_self]

/-- The decision logged by `delete_event` is the same with and without
the dry-run flag. -/
theorem del_decisions_dry_indep (sums : List String) (ex : RemoteEvent)
    (d1 d2 : Bool) :
    (delete_event sums ex d1).1 = (delete_event sums ex d2).1 := by
  unfold delete_event
  by_cases h : ex.summary ∈ sums <;> simp [h]

/-- In a dry run, `update_or_create_event` only fetches. -/
theorem upd_dry_ops (cal : Calendar) (ev : CalendarEvent) :
    (update_or_create_event cal ev true).2 = [RemoteOp.listEvents] := by
  unfold update_or_create_event find_existing_event
  cases cal.events.find? (matchesEvent ev) <;>
    simp [apply_ite Prod.snd, ite_self]

/-- In a dry run, `delete_event` makes no remote call. -/
theorem del_dry_ops (sums : List String) (ex : RemoteEvent) :
    (delete_event sums ex true).2 = [] := by
  unfold delete_event
  by_cases h : ex.summary ∈ sums <;> simp [h]

/-- Flattening a singleton-valued map is the map of the values. -/
theorem catLists_singleton_map {α β : Type} (f : α → β) :
    ∀ l : List α, catLists (l.map (fun x => [f x])) = l.map f := by
  intro l
  induction l with
  | nil => rfl
  | cons x xs ih => simp [catLists, ih]

/-- Mutating-call extraction distributes over concatenation. -/
theorem mutatingOps_append (a b : List RemoteOp) :
    mutatingOps (a ++ b) = mutatingOps a ++ mutatingOps b := by
  induction a with
  | nil => simp [mutatingOps]
  | cons op rest ih => cases op <;> simp [mutatingOps, ih]

/-- Concatenated traces with only non-mutating pieces are non-mutating. -/
theorem mutatingOps_cat_nil (L : List (List RemoteOp))
    (h : ∀ x ∈ L, mutatingOps x = []) : mutatingOps (catLists L) = [] := by
  induction L with
  | nil => rfl
  | cons x xs ih =>
    simp [catLists, mutatingOps_append, h x (by simp),
      ih (fun y hy => h y (by simp [hy]))]


/-- Claim C8 amended: a dry run computes and logs exactly the decisions
of a non-dry run, and no mutating call (create, update-save, delete)
reaches the remote collaborator — the remote store is left unchanged —
but read calls (`calendar.events()` fetches) still reach it. -/
theorem c8_amended_dry_run (cal : Calendar) (evs : List CalendarEvent) :
    (sync_events cal evs true).1 = (sync_events cal evs false).1
  ∧ mutatingOps (sync_events cal evs true).2 = [] := by
  constructor
  · unfold sync_events syncDecisions
    have h1 : ∀ l : List CalendarEvent,
        l.map (fun ev => (update_or_create_event cal ev true).1) =
          l.map (fun ev => (update_or_create_event cal ev false).1) := by
      intro l
      induction l with
      | nil => rfl
      | cons e rest ih => simp [ih, upd_decisions_dry_indep cal e true false]
    have h2 : ∀ l : List RemoteEvent,
        l.map (fun ex => (delete_event (evs.map summaryOf) ex true).1) =
          l.map (fun ex => (delete_event (evs.map summaryOf) ex false).1) := by
      intro l
      induction l with
      | nil => rfl
      | cons ex rest ih =>
        simp [ih, del_decisions_dry_indep (evs.map summaryOf) ex true false]
    rw [h1, h2]
  · unfold sync_events syncOps
    have h1 : mutatingOps (catLists
        (evs.map (fun ev => (update_or_create_event cal ev true).2))) = [] := by
      refine mutatingOps_cat_nil _ (fun x hx => ?_)
      obtain ⟨ev, _, rfl⟩ := List.mem_map.mp hx
      rw [upd_dry_ops]
      rfl
    have h2 : mutatingOps (catLists
        ((cal.events).map
          (fun ex => (delete_event (evs.map summaryOf) ex true).2))) = [] := by
      refine mutatingOps_cat_nil _ (fun x hx => ?_)
      obtain ⟨ex, _, rfl⟩ := List.mem_map.mp hx
      rw [del_dry_ops]
      rfl
    simp [mutatingOps, mutatingOps_append, h1, h2]

/-! ## Claim C10 -/

/-- With no target summaries, phase 2 logs a deletion for every snapshot
entry. -/
theorem del_all_decisions (dry : Bool) :
    ∀ exs : List RemoteEvent,
      catLists (exs.map (fun ex => (delete_event [] ex dry).1)) =
        exs.map (fun ex => Decision.deleted ex.summary) := by
  intro exs
  have h : (fun ex : RemoteEvent => (delete_event [] ex dry).1) =
      (fun ex => [Decision.deleted ex.summary]) := by
    funext ex; simp [delete_event]
  rw [h,
    catLists_singleton_map (fun ex : RemoteEvent => Decision.deleted ex.summary)]

/-- With no target summaries and no dry run, phase 2 deletes every
snapshot entry. -/
theorem del_all_ops :
    ∀ exs : List RemoteEvent,
      catLists (exs.map (fun ex => (delete_event [] ex false).2)) =
        exs.map (fun ex => RemoteOp.delete ex.ref) := by
  intro exs
  have h : (fun ex : RemoteEvent => (delete_event [] ex false).2) =
      (fun ex => [RemoteOp.delete ex.ref]) := by
    funext ex; simp [delete_event]
  rw [h, catLists_singleton_map (fun ex : RemoteEvent => RemoteOp.delete ex.ref)]

/-- Claim C10: syncing an empty target list logs a delete decision for
every existing remote event (deletion is keyed purely on membership of
the summary in the — here empty — target summary set), and a non-dry run
issues a delete call for every stored entry: a zero-event scrape wipes
the whole remote calendar. -/
theorem c10_empty_target_wipes_calendar (cal : Calendar) (dry : Bool) :
    (sync_events cal [] dry).1 =
      cal.events.map (fun ex => Decision.deleted ex.summary)
  ∧ (sync_events cal [] false).2 =
      RemoteOp.listEvents :: cal.events.map (fun ex => RemoteOp.delete ex.ref) := by
  constructor
  · simp [sync_events, syncDecisions, catLists, del_all_decisions]
  · simp [sync_events, syncOps, catLists, del_all_ops]

/-! ## Claim C5 -/

/-- Claim C5: for an event with no matching remote entry the cycle
creates one with start `doors if present else begin`, end
`begin + 3 clamped hours if begin present else doors + 5 clamped
hours`, and summary `"[category] artist"`; a matched entry differing in
any of the three fields is updated to exactly that computed triple; a
matched entry equal on all three triggers no mutating call. -/
theorem c5_reconciler_targets (cal : Calendar) (ev : CalendarEvent) :
    (cal.events.find? (matchesEvent ev) = none →
       update_or_create_event cal ev false =
         ([Decision.created (summaryOf ev)],
          [RemoteOp.listEvents,
           RemoteOp.saveEvent (target_dtstart ev) (target_dtend ev)
             (summaryOf ev)]))
  ∧ (∀ ex, cal.events.find? (matchesEvent ev) = some ex →
       (needsUpdate ex (target_dtstart ev) (target_dtend ev) (summaryOf ev) =
            true →
          update_or_create_event cal ev false =
            ([Decision.updated (summaryOf ev)],
             [RemoteOp.listEvents,
              RemoteOp.save ex.ref (target_dtstart ev) (target_dtend ev)
                (summaryOf ev)]))
     ∧ (needsUpdate ex (target_dtstart ev) (target_dtend ev) (summaryOf ev) =
            false →
          update_or_create_event cal ev false =
            ([Decision.nochange (summaryOf ev)], [RemoteOp.listEvents]))) := by
  refine ⟨?_, ?_⟩
  · intro h
    simp [update_or_create_event, find_existing_event, target_dtstart,
      target_dtend, h]
  · intro ex h
    refine ⟨?_, ?_⟩
    · intro hu
      simp only [target_dtstart, target_dtend] at hu
      simp [update_or_create_event, find_existing_event, target_dtstart,
        target_dtend, h, hu]
    · intro hu
      simp only [target_dtstart, target_dtend] at hu
      simp [update_or_create_event, find_existing_event, target_dtstart,
        target_dtend, h, hu]

/-- Witness for claim C5: a create against an empty calendar and a no-op
against a calendar already holding the exact computed triple. -/
theorem c5_reconciler_targets_witness :
    update_or_create_event exCalEmpty exEvent false =
      ([Decision.created (summaryOf exEvent)],
       [RemoteOp.listEvents,
        RemoteOp.saveEvent (target_dtstart exEvent) (target_dtend exEvent)
          (summaryOf exEvent)])
  ∧ update_or_create_event exCalMatch exEvent false =
      ([Decision.nochange (summaryOf exEvent)], [RemoteOp.listEvents]) :=
  ⟨(c5_reconciler_targets exCalEmpty exEvent).1 (by decide),
   ((c5_reconciler_targets exCalMatch exEvent).2 exRemoteMatch
     (by decide)).2 (by decide)⟩

/-! ## Claim C6 -/

/-- Claim C6: a document whose start-marker count differs from its
end-marker count makes the extraction fail with the count-mismatch error
(so zero events are produced), and the main cycle logs the failure
without attempting any sync. -/
theorem c6_count_mismatch_aborts (cal : Calendar)
    (doc starts ends : List Node) (dry : Bool)
    (h : starts.length ≠ ends.length) :
    crawl doc starts ends = Except.error PyErr.countMismatch
  ∧ mainCycle cal (Except.ok (doc, starts, ends)) dry =
      MainResult.fatalLogged PyErr.countMismatch := by
  have hc : crawl doc starts ends = Except.error PyErr.countMismatch := by
    simp [crawl, find_elements, h]
  refine ⟨hc, ?_⟩
  simp [mainCycle, hc]

/-- Witness for claim C6 at a one-start, zero-end document. -/
theorem c6_count_mismatch_aborts_witness :
    crawl [exNodeA] [exNodeA] [] = Except.error PyErr.countMismatch
  ∧ mainCycle exCalEmpty (Except.ok ([exNodeA], [exNodeA], [])) false =
      MainResult.fatalLogged PyErr.countMismatch :=
  c6_count_mismatch_aborts exCalEmpty [exNodeA] [exNodeA] [] false (by decide)

/-! ## Claim C7 -/

/-- A successful `re.search` always carries a string capture. -/
theorem pySearch_group1 (marker s : String) (mm : ReMatch)
    (h : pySearch marker s = some mm) : ∃ g, mm.group1 = some g := by
  unfold pySearch at h
  cases hs : searchFrom marker.toList s.toList with
  | none => rw [hs] at h; simp at h
  | some g =>
    rw [hs] at h
    simp only [Option.map] at h
    injection h with h
    exact ⟨g, by rw [← h]⟩

/-- `parse_datetime` applied to a match with a string capture is the
capture processing. -/
theorem parse_datetime_some (d : Int) (mm : ReMatch) (g : String)
    (hg : mm.group1 = some g) :
    parse_datetime d (some mm) = parse_capture d g := by
  show (match mm.group1 with
        | none => Except.ok none
        | some g2 => parse_capture d g2) = parse_capture d g
  rw [hg]

/-- Processing a capture never succeeds with an absent time: it either
raises or yields a datetime. -/
theorem parse_capture_ok_ne_none (d : Int) (g : String) (r : Option Int)
    (h : parse_capture d g = Except.ok r) : r ≠ none := by
  unfold parse_capture at h
  cases hm : exMapM convInt (pySplit g ':') with
  | error e => rw [hm] at h; simp at h
  | ok ints =>
    rw [hm] at h
    rcases ints with _ | ⟨a, _ | ⟨b, _ | ⟨c, rest⟩⟩⟩
    · simp at h
    · simp at h
    · simp at h
      split at h
      · injection h with h2
        rw [← h2]
        simp
      · simp at h
    · simp at h

/-- The times computed by `mk_times` are absent exactly when the
corresponding regex search found nothing. -/
theorem mk_times_none_iff (d : Int) (desc : String) (doors bg : Option Int)
    (h : mk_times d desc = Except.ok (doors, bg)) :
    (doors = none ↔ pySearch einlassMark desc = none)
  ∧ (bg = none ↔ pySearch beginnMark desc = none) := by
  unfold mk_times at h
  cases h1 : parse_datetime d (pySearch einlassMark desc) with
  | error e => rw [h1] at h; simp at h
  | ok dr =>
    rw [h1] at h
    cases h2 : parse_datetime d (pySearch beginnMark desc) with
    | error e => rw [h2] at h; simp at h
    | ok bg2 =>
      rw [h2] at h
      injection h with h3
      injection h3 with hdr hbg
      subst hdr hbg
      constructor
      · cases hs : pySearch einlassMark desc with
        | none =>
          rw [hs] at h1
          have h1s : Except.ok (none : Option Int) = Except.ok dr := h1
          injection h1s with h1s
          subst h1s
          simp
        | some mm =>
          rw [hs] at h1
          obtain ⟨g, hg⟩ := pySearch_group1 einlassMark desc mm hs
          rw [parse_datetime_some d mm g hg] at h1
          have hne := parse_capture_ok_ne_none d g dr h1
          simp [hne]
      · cases hs : pySearch beginnMark desc with
        | none =>
          rw [hs] at h2
          have h2s : Except.ok (none : Option Int) = Except.ok bg2 := h2
          injection h2s with h2s
          subst h2s
          simp
        | some mm =>
          rw [hs] at h2
          obtain ⟨g, hg⟩ := pySearch_group1 beginnMark desc mm hs
          rw [parse_datetime_some d mm g hg] at h2
          have hne := parse_capture_ok_ne_none d g bg2 h2
          simp [hne]

/-- What a successful `finish_event` guarantees about the record: the
stored description, day and artist are the arguments, at least one time
is present, and when both regex searches fail on the description the
doors time is the forced 16:00 with the forcing logged under the artist
and date. -/
theorem finish_event_ok (category artist : String) (d : Int) (desc : String)
    (ev : CalendarEvent) (logs : List LogEntry)
    (h : finish_event category artist d desc = Except.ok (ev, logs)) :
    ev.description = desc ∧ ev.day = d ∧ ev.artist = artist
  ∧ (ev.doors.isSome ∨ ev.begin.isSome)
  ∧ (pySearch einlassMark desc = none ∧ pySearch beginnMark desc = none →
       ev.doors = some (combine d 16 0)
     ∧ logs = [LogEntry.forceEvent artist d]) := by
  unfold finish_event at h
  cases hm : mk_times d desc with
  | error e => rw [hm] at h; simp at h
  | ok pr =>
    obtain ⟨doors, bg⟩ := pr
    rw [hm] at h
    obtain ⟨hdi, hbi⟩ := mk_times_none_iff d desc doors bg hm
    simp at h
    split at h
    next hf =>
      injection h with h2
      injection h2 with hev hlogs
      subst hev hlogs
      refine ⟨rfl, rfl, rfl, Or.inl rfl, fun _ => ⟨rfl, rfl⟩⟩
    next hf =>
      injection h with h2
      injection h2 with hev hlogs
      subst hev hlogs
      refine ⟨rfl, rfl, rfl, ?_, ?_⟩
      · rcases Decidable.not_and_iff_or_not.mp hf with hd | hb
        · exact Or.inl (Option.isSome_iff_ne_none.mpr hd)
        · exact Or.inr (Option.isSome_iff_ne_none.mpr hb)
      · intro hsearch
        exact absurd ⟨hdi.mpr hsearch.1, hbi.mpr hsearch.2⟩ hf

/-- Claim C7: every record the extractor returns has at least one of
doors/begin present, and whenever both time patterns are textually
absent from the record's description, doors is exactly 16:00 on the
record's day and a forcing log entry naming the artist and date was
emitted. -/
theorem c7_extraction_invariant (group : List (Option Node))
    (ev : CalendarEvent) (logs : List LogEntry)
    (h : parse_event group = Except.ok (ev, logs)) :
    (ev.doors.isSome ∨ ev.begin.isSome)
  ∧ (pySearch einlassMark ev.description = none ∧
       pySearch beginnMark ev.description = none →
       ev.doors = some (combine ev.day 16 0)
     ∧ logs = [LogEntry.forceEvent ev.artist ev.day]) := by
  unfold parse_event at h
  cases hh : parse_header group with
  | error e => rw [hh] at h; simp at h
  | ok tup =>
    obtain ⟨category, artist, d, desc⟩ := tup
    rw [hh] at h
    obtain ⟨hdesc, hday, hart, hsome, hforce⟩ :=
      finish_event_ok category artist d desc ev logs h
    rw [hdesc, hday, hart]
    exact ⟨hsome, hforce⟩

/-- Witness for claim C7: the spec's no-time-text example group forces
doors to 16:00 on 12 June 2025 and logs the forcing. -/
theorem c7_extraction_invariant_witness :
    (exForcedEvent.doors.isSome ∨ exForcedEvent.begin.isSome)
  ∧ (pySearch einlassMark exForcedEvent.description = none ∧
       pySearch beginnMark exForcedEvent.description = none →
       exForcedEvent.doors = some (combine exForcedEvent.day 16 0)
     ∧ [LogEntry.forceEvent "DJ Test" exDay] =
         [LogEntry.forceEvent exForcedEvent.artist exForcedEvent.day]) :=
  c7_extraction_invariant exGroupForced exForcedEvent
    [LogEntry.forceEvent "DJ Test" exDay] (by decide)

/-! ## Claim C9 amended -/

/-- The only exception `int` conversion over a fragment list raises is
`ValueError`. -/
theorem exMapM_convInt_error (l : List String) :
    ∀ e, exMapM convInt l = Except.error e → e = PyErr.valueError := by
  induction l with
  | nil => intro e h; simp [exMapM] at h
  | cons a rest ih =>
    intro e h
    unfold exMapM at h
    cases hpa : pyInt? a with
    | none =>
      rw [show convInt a = Except.error PyErr.valueError from by
        simp [convInt, hpa]] at h
      simp at h
      exact h.symm
    | some k =>
      rw [show convInt a = Except.ok k from by simp [convInt, hpa]] at h
      simp at h
      cases hr : exMapM convInt rest with
      | error e2 =>
        rw [hr] at h
        simp at h
        rw [← h]
        exact ih e2 hr
      | ok bs =>
        rw [hr] at h
        simp at h

/-- Capture processing, phrased through the claim's reading of the text
as two colon-separated integers: a parseable in-range capture yields the
combined datetime, a parseable out-of-range one raises `ValueError`, and
an unparseable one raises `ValueError`. -/
theorem parse_capture_eq_twoColonInts (d : Int) (g : String) :
    parse_capture d g =
      (match twoColonInts g with
       | some (hr, mi) =>
         if 0 ≤ hr ∧ hr ≤ 23 ∧ 0 ≤ mi ∧ mi ≤ 59 then
           Except.ok (some (combine d hr mi))
         else Except.error PyErr.valueError
       | none => Except.error PyErr.valueError) := by
  unfold parse_capture twoColonInts
  rcases hsp : pySplit g ':' with _ | ⟨a, _ | ⟨b, _ | ⟨c, rest⟩⟩⟩
  · simp [exMapM]
  · cases hpa : pyInt? a <;> simp [exMapM, convInt, hpa]
  · cases hpa : pyInt? a <;> cases hpb : pyInt? b <;>
      simp [exMapM, convInt, hpa, hpb]
  · cases hpa : pyInt? a <;> cases hpb : pyInt? b <;> cases hpc : pyInt? c <;>
      simp [exMapM, convInt, hpa, hpb, hpc]
    all_goals
      cases hrest : exMapM convInt rest with
      | error e2 => simp [hrest, exMapM_convInt_error rest e2 hrest]
      | ok bs => simp [hrest]

/-- Claim C9 amended: `parse_datetime` yields the datetime combining the
day with hour and minute for a participating capture parseable as two
in-range colon-separated integers, yields absent when there was no match
or the capture group did not participate (is not a string), and raises
`ValueError` — rather than returning absent — when the captured text is
not parseable as two in-range colon-separated integers. -/
theorem c9_amended_parse_datetime (d : Int) (m : ReMatch) :
    parse_datetime d none = Except.ok none
  ∧ (m.group1 = none → parse_datetime d (some m) = Except.ok none)
  ∧ (∀ g, m.group1 = some g →
       parse_datetime d (some m) =
         (match twoColonInts g with
          | some (hr, mi) =>
            if 0 ≤ hr ∧ hr ≤ 23 ∧ 0 ≤ mi ∧ mi ≤ 59 then
              Except.ok (some (combine d hr mi))
            else Except.error PyErr.valueError
          | none => Except.error PyErr.valueError)) := by
  refine ⟨rfl, ?_, ?_⟩
  · intro hg
    show (match m.group1 with
          | none => Except.ok none
          | some g2 => parse_capture d g2) = Except.ok none
    rw [hg]
  · intro g hg
    rw [parse_datetime_some d m g hg]
    exact parse_capture_eq_twoColonInts d g

/-- Witness for the amended claim C9: the capture "12:34" on day 0 gives
minute 754 of that day. -/
theorem c9_amended_parse_datetime_witness :
    parse_datetime 0 (some { group1 := some "12:34" }) =
      Except.ok (some 754) := by
  have h := (c9_amended_parse_datetime 0 { group1 := some "12:34" }).2.2
    "12:34" rfl
  exact h.trans (by decide)
